import Mathlib

/-!
Shallow embedding of the repository/mapper/unit-of-work core of the
`university-telegram-bot-assignment` backend (TypeScript, NestJS + Drizzle ORM).

Modelled source files:
* `shared/domain/entities/entity.ts` — the `Entity` base class (`equals` compares ids
  with JavaScript strict equality `===`).
* `modules/sessions/domain/entities/session.entity.ts` — the `Session` entity with
  class-field defaults `_preferredLanguage = 'en'`, `_preferredCurrency = 'usd'` and a
  `class-constructor` builder.
* `modules/sessions/infrastructure/persistence/drizzle/mappers/drizzle-session.mapper.ts`
  — `DrizzleSessionMapper.toDomain` / `toPersistence`.
* the generic `DrizzleRepository` (`findById`, `save`, `delete`, `_setDatasource`),
  instantiated at the `sessions` table with identity column `id`.
* `DrizzleDbContext` — the unit-of-work context whose three transaction methods only
  log a warning and change nothing.

JavaScript runtime values relevant to these claims are strings, `undefined` and
`null`; TypeScript types are erased at runtime, so entity and row fields are
modelled with `JsVal` rather than `String`.
-/

/-- A JavaScript runtime value as far as the persistence layer observes it:
a string, `undefined`, or `null`. -/
inductive JsVal where
  | str (s : String)
  | undef
  | jsNull
deriving DecidableEq, Repr

/-- JavaScript strict equality `===` on the modelled values: value equality on
strings, `undefined === undefined` and `null === null` are true, everything
cross-kind is false. -/
def jsStrictEq (a b : JsVal) : Bool :=
  decide (a = b)

/-- SQL equality as produced by drizzle's `eq(column, value)`: two values compare
equal only when both are non-null strings with the same contents (SQL `NULL`
never compares equal, and `undefined` never reaches SQL as an equal value). -/
def sqlEq (a b : JsVal) : Bool :=
  match a, b with
  | .str x, .str y => x == y
  | _, _ => false

/-- The `Entity` base class viewed generically: a runtime object carrying the name
of its concrete class (`kind`), the inherited `id` property, and whatever other
own fields the concrete entity declares. `equals` reads none of these but `id`. -/
structure EntityObj where
  kind : String
  id : JsVal
  fields : List (String × JsVal)
deriving DecidableEq, Repr

/-- `Entity.equals` from `shared/domain/entities/entity.ts`:
`return this.id === entity.id`. -/
def EntityObj.equals (a b : EntityObj) : Bool :=
  jsStrictEq a.id b.id

/-- The `Session` entity (`session.entity.ts`): inherited `id` plus the two private
fields exposed through getters/setters. Fields hold runtime values (`JsVal`):
TypeScript's `string` annotations are erased. -/
structure Session where
  id : JsVal
  preferredLanguage : JsVal
  preferredCurrency : JsVal
deriving DecidableEq, Repr

/-- `new Session()`: the `Entity` constructor runs with no argument (`id` becomes
`undefined`) and the class-field initializers set `_preferredLanguage = 'en'` and
`_preferredCurrency = 'usd'`. `Session.builder()` starts from this instance. -/
def Session.builder : Session :=
  { id := JsVal.undef, preferredLanguage := JsVal.str "en", preferredCurrency := JsVal.str "usd" }

/-- The builder's `.id(v)` step: assigns the `id` property of the instance. -/
def Session.setId (e : Session) (v : JsVal) : Session :=
  { e with id := v }

/-- The builder's `.preferredLanguage(v)` step: runs the `preferredLanguage`
setter, which assigns `_preferredLanguage`. -/
def Session.setPreferredLanguage (e : Session) (v : JsVal) : Session :=
  { e with preferredLanguage := v }

/-- The builder's `.preferredCurrency(v)` step: runs the `preferredCurrency`
setter, which assigns `_preferredCurrency`. -/
def Session.setPreferredCurrency (e : Session) (v : JsVal) : Session :=
  { e with preferredCurrency := v }

/-- `Entity.equals` as inherited by `Session`: compares the two ids with `===`. -/
def Session.equals (a b : Session) : Bool :=
  jsStrictEq a.id b.id

/-- A row of the `sessions` table (`typeof sessions.$inferSelect`): columns `id`,
`preferredLanguage`, `preferredCurrency`. Runtime values, since a raw row may
carry `null` where the schema says `notNull`. -/
structure SessionRow where
  id : JsVal
  preferredLanguage : JsVal
  preferredCurrency : JsVal
deriving DecidableEq, Repr

namespace DrizzleSessionMapper

/-- `DrizzleSessionMapper.toDomain(persistence)`: builds a `Session` through the
builder chain `.id(p.id).preferredLanguage(p.preferredLanguage)`
`.preferredCurrency(p.preferredCurrency).build()`, with no validation. -/
def toDomain (p : SessionRow) : Session :=
  ((Session.builder.setId p.id).setPreferredLanguage p.preferredLanguage).setPreferredCurrency
    p.preferredCurrency

/-- `DrizzleSessionMapper.toPersistence(domain)`: the literal object
`id / preferredLanguage / preferredCurrency` read from the entity's getters. -/
def toPersistence (e : Session) : SessionRow :=
  { id := e.id, preferredLanguage := e.preferredLanguage, preferredCurrency := e.preferredCurrency }

end DrizzleSessionMapper

/-- The `sessions` table state: the list of its rows, in insertion order. -/
abbrev DB := List SessionRow

/-- A runtime failure surfaced by the repository layer. `typeError` is the generic
JavaScript error raised when a method is invoked on an `undefined` receiver;
`noValuesToSet` is drizzle's `mapUpdateSet` throw when the conflict-update object
has no defined entries; `emptySetClause` is the database driver's rejection of an
`ON CONFLICT ... DO UPDATE SET` statement whose SET list came out empty.
`notBoundError` stands for the spec's named `NotBoundError`; no such class exists
anywhere in the code and no code path below produces this constructor. -/
inductive JsError where
  | typeError (msg : String)
  | noValuesToSet
  | emptySetClause
  | notBoundError
deriving DecidableEq, Repr

/-- What `DrizzleRepository.findById` resolves to: `null` (explicit
`return null` when no row matched), `undefined` (the body falls off the end), or
a mapped entity (no code path below produces this constructor, because the
source's last statement `this.mapper.toDomain(result)` carries no `return`). -/
inductive FindByIdResult where
  | jsNull
  | jsUndefined
  | found (e : Session)
deriving DecidableEq, Repr

/-- The own enumerable properties of a `Session` instance, in definition order:
the `id` field assigned by the `Entity` constructor, then the private class
fields `_preferredLanguage` and `_preferredCurrency`. Getters and setters live
on the prototype and are not own properties. This is what `Object.entries`
sees when the raw entity is handed to drizzle as a conflict-update `set`. -/
def sessionOwnProps (e : Session) : List (String × JsVal) :=
  [("id", e.id), ("_preferredLanguage", e.preferredLanguage),
   ("_preferredCurrency", e.preferredCurrency)]

/-- The TypeScript keys of the `sessions` table's columns, in declaration order. -/
def sessionTableKeys : List String :=
  ["id", "preferredLanguage", "preferredCurrency"]

/-- drizzle's `mapUpdateSet`: `Object.entries(set)` filtered to entries whose
value is not `undefined`. -/
def mapUpdateSetEntries (e : Session) : List (String × JsVal) :=
  (sessionOwnProps e).filter (fun kv => !decide (kv.2 = JsVal.undef))

/-- drizzle's `buildUpdateSet`: the table columns that actually get a `SET`
assignment are those whose TypeScript key occurs among the set entries. The
private-prefixed keys of a raw entity match no column. -/
def buildUpdateSetColumns (entries : List (String × JsVal)) : List String :=
  sessionTableKeys.filter (fun k => (entries.lookup k).isSome)

/-- Apply the generated `SET` assignments to a conflicting row: each column in
`cols` is overwritten with the value its key carries in `entries`; all other
columns keep their stored values. -/
def applyUpdateSet (entries : List (String × JsVal)) (cols : List String)
    (r : SessionRow) : SessionRow :=
  { id :=
      if cols.contains "id" then (entries.lookup "id").getD r.id else r.id
    preferredLanguage :=
      if cols.contains "preferredLanguage" then
        (entries.lookup "preferredLanguage").getD r.preferredLanguage
      else r.preferredLanguage
    preferredCurrency :=
      if cols.contains "preferredCurrency" then
        (entries.lookup "preferredCurrency").getD r.preferredCurrency
      else r.preferredCurrency }

/-- Execute the upsert against the table: the first row whose identity column
equals the inserted row's identity is updated in place via the `SET`
assignments; if none conflicts, the new row is appended. Returns the new table
state and the affected row (whose identity column `RETURNING` projects). -/
def upsertRows (entries : List (String × JsVal)) (cols : List String)
    (row : SessionRow) : DB → DB × SessionRow
  | [] => ([row], row)
  | r :: rs =>
    if sqlEq r.id row.id then
      (applyUpdateSet entries cols r :: rs, applyUpdateSet entries cols r)
    else
      let (rs', affected) := upsertRows entries cols row rs
      (r :: rs', affected)

/-- `DrizzleRepository.findById` against a bound table: select the rows whose
identity column equals `id`, keep the first (`limit(1)` and array
destructuring), return `null` when there is none; otherwise the source computes
`this.mapper.toDomain(result)` but — lacking a `return` — resolves to
`undefined`. -/
def drizzleFindById (db : DB) (id : JsVal) : FindByIdResult :=
  match (db.filter (fun r => sqlEq r.id id)).head? with
  | none => FindByIdResult.jsNull
  | some _ => FindByIdResult.jsUndefined

/-- `DrizzleRepository.save` against a bound table:
`insert(table).values(mapper.toPersistence(entity))`
`.onConflictDoUpdate(target := identity column, set := entity)`
`.returning(identity column)`. The `set` object is the raw domain entity, so
its entries come from `sessionOwnProps`. Returns the updated table and the
returned identity value. -/
def drizzleSessionSave (db : DB) (e : Session) : Except JsError (DB × JsVal) :=
  let row := DrizzleSessionMapper.toPersistence e
  let entries := mapUpdateSetEntries e
  if entries.isEmpty then
    Except.error JsError.noValuesToSet
  else
    let cols := buildUpdateSetColumns entries
    if cols.isEmpty then
      Except.error JsError.emptySetClause
    else
      let (db', affected) := upsertRows entries cols row db
      Except.ok (db', affected.id)

/-- `DrizzleRepository.delete` against a bound table: delete every row whose
identity column equals `id`. -/
def drizzleDelete (db : DB) (id : JsVal) : DB :=
  db.filter (fun r => !sqlEq r.id id)

/-- The repository's held datasource: `this.db` is `undefined` until
`_setDatasource` is called, then the live database handle. -/
abbrev Datasource := Option DB

/-- `findById` as callable on the repository object: with no datasource bound,
`this.db.select()` dereferences `undefined` and throws a generic `TypeError`. -/
def repoFindById (ds : Datasource) (id : JsVal) : Except JsError FindByIdResult :=
  match ds with
  | none => Except.error (JsError.typeError "Cannot read properties of undefined")
  | some db => Except.ok (drizzleFindById db id)

/-- `save` as callable on the repository object: with no datasource bound,
`this.db.insert()` dereferences `undefined` and throws a generic `TypeError`. -/
def repoSave (ds : Datasource) (e : Session) : Except JsError (DB × JsVal) :=
  match ds with
  | none => Except.error (JsError.typeError "Cannot read properties of undefined")
  | some db => drizzleSessionSave db e

/-- `delete` as callable on the repository object: with no datasource bound,
`this.db.delete()` dereferences `undefined` and throws a generic `TypeError`. -/
def repoDelete (ds : Datasource) (id : JsVal) : Except JsError DB :=
  match ds with
  | none => Except.error (JsError.typeError "Cannot read properties of undefined")
  | some db => Except.ok (drizzleDelete db id)

/-- The warning `DrizzleDbContext.startTransaction` logs. -/
def startTxWarn : String :=
  "Transaction was not started: current db context implementation does not provide transaction functionality yet"

/-- The warning `DrizzleDbContext.commitTransaction` logs. -/
def commitTxWarn : String :=
  "Transaction was not committed: current db context implementation does not provide transaction functionality yet"

/-- The warning `DrizzleDbContext.rollbackTransaction` logs. -/
def rollbackTxWarn : String :=
  "Not transaction to rollback: current db context implementation does not provide transaction functionality yet"

/-- `DrizzleDbContext`: holds the live database handle (to which its
repositories are bound at construction) and, for observability, the sequence of
warnings its logger has emitted. The source class keeps no transaction state of
any kind. -/
structure DbContext where
  db : DB
  logs : List String
deriving DecidableEq, Repr

/-- `DrizzleDbContext.startTransaction`: logs a warning and does nothing else —
no state transition, no error. -/
def DbContext.startTransaction (c : DbContext) : DbContext :=
  { c with logs := c.logs ++ [startTxWarn] }

/-- `DrizzleDbContext.commitTransaction`: logs a warning and does nothing else. -/
def DbContext.commitTransaction (c : DbContext) : DbContext :=
  { c with logs := c.logs ++ [commitTxWarn] }

/-- `DrizzleDbContext.rollbackTransaction`: logs a warning and does nothing
else — in particular it discards no writes. -/
def DbContext.rollbackTransaction (c : DbContext) : DbContext :=
  { c with logs := c.logs ++ [rollbackTxWarn] }

/-- Modelled from the spec: the `Command` base class
(`shared/application/CQS/command.abstract.ts` is referenced by the use cases but
is not among the provided sources). Per spec section 4.5 it calls
`startTransaction()`, then `implementation()`; on success it calls
`commitTransaction()` and returns the result; on any failure raised by
`implementation()` it calls `rollbackTransaction()` and re-raises the original
failure unchanged. `impl` returns the context as mutated by the writes it
issued before returning or throwing. -/
def commandExecute {α : Type} (impl : DbContext → DbContext × Except String α)
    (c : DbContext) : DbContext × Except String α :=
  let c1 := c.startTransaction
  let (c2, r) := impl c1
  match r with
  | Except.ok a => (c2.commitTransaction, Except.ok a)
  | Except.error e => (c2.rollbackTransaction, Except.error e)

/-- A Command implementation that issues one `save` through the context's bound
session repository and then raises. Used to exercise the atomicity contract. -/
def failingSaveImpl (c : DbContext) : DbContext × Except String Unit :=
  match repoSave (some c.db) ⟨JsVal.str "s1", JsVal.str "de", JsVal.str "eur"⟩ with
  | Except.ok (db', _) => ({ c with db := db' }, Except.error "boom")
  | Except.error _ => (c, Except.error "save failed")

/-- C1: on a table holding the single row with id `s1`, `findById` of `s1`
resolves to `undefined` — the source computes `mapper.toDomain(result)` but has
no `return` statement, so the claimed "returns the Entity produced by
Mapper.toDomain" fails; the no-match half of the claim does hold (`findById` of
an absent id resolves to `null`, not an error). -/
theorem findById_match_resolves_undefined :
    repoFindById (some [⟨JsVal.str "s1", JsVal.str "en", JsVal.str "usd"⟩]) (JsVal.str "s1")
      = Except.ok FindByIdResult.jsUndefined ∧
    repoFindById (some [⟨JsVal.str "s1", JsVal.str "en", JsVal.str "usd"⟩]) (JsVal.str "s2")
      = Except.ok FindByIdResult.jsNull :=
  ⟨rfl, rfl⟩

/-- C2: for every valid `Session` entity (id and both fields present as
strings), `toDomain (toPersistence e)` reconstructs `e` exactly — so it is
equal to `e` by identity (`Entity.equals`) and in every mapped field. -/
theorem session_mapper_roundtrip (e : Session) (i l c : String)
    (hi : e.id = JsVal.str i) (hl : e.preferredLanguage = JsVal.str l)
    (hc : e.preferredCurrency = JsVal.str c) :
    DrizzleSessionMapper.toDomain (DrizzleSessionMapper.toPersistence e) = e ∧
    Session.equals (DrizzleSessionMapper.toDomain (DrizzleSessionMapper.toPersistence e)) e
      = true ∧
    (DrizzleSessionMapper.toDomain (DrizzleSessionMapper.toPersistence e)).preferredLanguage
      = e.preferredLanguage ∧
    (DrizzleSessionMapper.toDomain (DrizzleSessionMapper.toPersistence e)).preferredCurrency
      = e.preferredCurrency := by
  refine ⟨rfl, ?_, rfl, rfl⟩
  simp [Session.equals, jsStrictEq, DrizzleSessionMapper.toDomain,
    DrizzleSessionMapper.toPersistence, Session.builder, Session.setId,
    Session.setPreferredLanguage, Session.setPreferredCurrency]

/-- Witness for C2 at a concrete valid session. -/
theorem session_mapper_roundtrip_witness :
    DrizzleSessionMapper.toDomain (DrizzleSessionMapper.toPersistence
        ⟨JsVal.str "a", JsVal.str "en", JsVal.str "usd"⟩)
      = ⟨JsVal.str "a", JsVal.str "en", JsVal.str "usd"⟩ :=
  (session_mapper_roundtrip ⟨JsVal.str "a", JsVal.str "en", JsVal.str "usd"⟩
    "a" "en" "usd" rfl rfl rfl).1

/-- C3: on a table holding the row (`s1`, `en`, `usd`), saving an entity with
the same id but new field values (`de`, `eur`) leaves the stored row entirely
unchanged and returns `s1` — the conflict-update `SET` clause is built from the
entity's own properties (`id`, `_preferredLanguage`, `_preferredCurrency`), of
which only `id` matches a table column, so the data columns are never
overwritten with the new values as the claim requires. -/
theorem save_conflict_updates_only_id :
    drizzleSessionSave [⟨JsVal.str "s1", JsVal.str "en", JsVal.str "usd"⟩]
        ⟨JsVal.str "s1", JsVal.str "de", JsVal.str "eur"⟩
      = Except.ok ([⟨JsVal.str "s1", JsVal.str "en", JsVal.str "usd"⟩], JsVal.str "s1") := by
  rfl

/-- C4: a Command whose implementation saves the session row `s1` into an
initially empty database and then raises leaves that row durably visible after
the Command fails — `rollbackTransaction` only logs a warning and discards
nothing, so the failed Command does produce a partial write. -/
theorem failed_command_write_visible :
    (commandExecute failingSaveImpl (DbContext.mk [] [])).2 = Except.error "boom" ∧
    (commandExecute failingSaveImpl (DbContext.mk [] [])).1.db
      = [⟨JsVal.str "s1", JsVal.str "de", JsVal.str "eur"⟩] :=
  ⟨rfl, rfl⟩

/-- C5: `startTransaction` called twice in a row on a context completes normally
both times, leaves the database state untouched, and only appends its warning to
the log each time — there is no idle/active transition and no
`TransactionAlreadyActiveError` (no such class exists, and the method's only
effect is the log line). -/
theorem startTransaction_noop_no_error :
    ((DbContext.mk [] []).startTransaction).db = [] ∧
    ((DbContext.mk [] []).startTransaction).startTransaction
      = DbContext.mk [] [startTxWarn, startTxWarn] :=
  ⟨rfl, rfl⟩

/-- Counterexample to C6: `findById` on a repository whose datasource was never
bound fails with a generic `TypeError` from dereferencing the `undefined`
connection handle, not with the claimed `NotBoundError`. -/
theorem findById_unbound_not_notBoundError :
    repoFindById none (JsVal.str "x")
      = Except.error (JsError.typeError "Cannot read properties of undefined") ∧
    repoFindById none (JsVal.str "x") ≠ Except.error JsError.notBoundError := by
  refine ⟨rfl, ?_⟩
  intro h
  simp [repoFindById] at h

/-- C6 (amended): every CRUD operation called before the datasource is bound
fails by throwing the generic `TypeError` raised when the unset (`undefined`)
connection handle is dereferenced; the code defines no `NotBoundError`. -/
theorem crud_unbound_throws_typeError :
    ∀ (id : JsVal) (e : Session),
      repoFindById none id
        = Except.error (JsError.typeError "Cannot read properties of undefined") ∧
      repoSave none e
        = Except.error (JsError.typeError "Cannot read properties of undefined") ∧
      repoDelete none id
        = Except.error (JsError.typeError "Cannot read properties of undefined") :=
  fun _ _ => ⟨rfl, rfl, rfl⟩

/-- Counterexample to C7: a persisted row whose required `preferredLanguage`
field is `null` (absent) is accepted by `toDomain`, which succeeds and embeds
the `null` into the built `Session` — no `MappingError` is raised and the
incompatible value is silently carried into the entity. -/
theorem toDomain_null_silently_coerced :
    DrizzleSessionMapper.toDomain ⟨JsVal.str "s1", JsVal.jsNull, JsVal.str "usd"⟩
      = ⟨JsVal.str "s1", JsVal.jsNull, JsVal.str "usd"⟩ :=
  rfl

/-- C7 (amended): `toDomain` performs no validation at all — it copies the
row's `id`, `preferredLanguage` and `preferredCurrency` verbatim into the built
`Session` and never fails, whatever the row holds (the code defines no
`MappingError`). -/
theorem toDomain_total_copies_verbatim :
    ∀ p : SessionRow,
      DrizzleSessionMapper.toDomain p
        = { id := p.id, preferredLanguage := p.preferredLanguage,
            preferredCurrency := p.preferredCurrency } :=
  fun _ => rfl

/-- C8: `delete` removes exactly the rows whose identity column equals the given
id (no matching row survives, every non-matching row survives), deleting an
absent id succeeds and returns the table unchanged, and a second consecutive
delete of the same id is a no-op. -/
theorem delete_contract :
    (∀ (db : DB) (id : JsVal), (∀ r ∈ db, sqlEq r.id id = false) →
      repoDelete (some db) id = Except.ok db) ∧
    (∀ (db : DB) (id : JsVal),
      drizzleDelete (drizzleDelete db id) id = drizzleDelete db id) ∧
    (∀ (db : DB) (id : JsVal) (r : SessionRow),
      r ∈ drizzleDelete db id → sqlEq r.id id = false) ∧
    (∀ (db : DB) (id : JsVal) (r : SessionRow),
      r ∈ db → sqlEq r.id id = false → r ∈ drizzleDelete db id) := by
  refine ⟨?_, ?_, ?_, ?_⟩
  · intro db id h
    simp only [repoDelete, drizzleDelete, Except.ok.injEq]
    rw [List.filter_eq_self]
    intro r hr
    simp [h r hr]
  · intro db id
    simp [drizzleDelete, List.filter_filter]
  · intro db id r hr
    have := (List.mem_filter.mp hr).2
    simpa using this
  · intro db id r hr hne
    exact List.mem_filter.mpr ⟨hr, by simp [hne]⟩

/-- Witness for C8: deleting the absent id `zz` from a one-row table succeeds
and leaves the table unchanged. -/
theorem delete_contract_witness :
    repoDelete (some [⟨JsVal.str "s1", JsVal.str "en", JsVal.str "usd"⟩]) (JsVal.str "zz")
      = Except.ok [⟨JsVal.str "s1", JsVal.str "en", JsVal.str "usd"⟩] :=
  delete_contract.1 [⟨JsVal.str "s1", JsVal.str "en", JsVal.str "usd"⟩] (JsVal.str "zz")
    (by decide)

/-- C9: `Entity.equals` holds exactly when the two ids are strictly equal,
ignoring every other field and the entities' concrete kinds — in particular two
entities of different kinds with the same primitive string id are equal, and
two entities whose ids are both `undefined` are equal. -/
theorem entity_equals_ids_only :
    (∀ a b : EntityObj, EntityObj.equals a b = true ↔ a.id = b.id) ∧
    (∀ (k1 k2 : String) (f1 f2 : List (String × JsVal)) (s : String),
      EntityObj.equals ⟨k1, JsVal.str s, f1⟩ ⟨k2, JsVal.str s, f2⟩ = true) ∧
    (∀ (k1 k2 : String) (f1 f2 : List (String × JsVal)),
      EntityObj.equals ⟨k1, JsVal.undef, f1⟩ ⟨k2, JsVal.undef, f2⟩ = true) := by
  refine ⟨?_, ?_, ?_⟩ <;> intros <;> simp [EntityObj.equals, jsStrictEq]

/-- Witness for C9: a Session-kinded and a Category-kinded entity with the same
primitive id compare equal. -/
theorem entity_equals_ids_only_witness :
    EntityObj.equals ⟨"Session", JsVal.str "x", [("_preferredLanguage", JsVal.str "en")]⟩
      ⟨"Category", JsVal.str "x", []⟩ = true :=
  entity_equals_ids_only.2.1 "Session" "Category"
    [("_preferredLanguage", JsVal.str "en")] [] "x"

/-- C10: a `Session` built via `Session.builder()` without setting
`preferredLanguage` or `preferredCurrency` carries the class-field defaults
`en` and `usd`, and its id is `undefined` unless one is supplied. -/
theorem session_builder_defaults :
    Session.builder.preferredLanguage = JsVal.str "en" ∧
    Session.builder.preferredCurrency = JsVal.str "usd" ∧
    Session.builder.id = JsVal.undef ∧
    (∀ v : JsVal, Session.builder.setId v
      = { id := v, preferredLanguage := JsVal.str "en",
          preferredCurrency := JsVal.str "usd" }) :=
  ⟨rfl, rfl, rfl, fun _ => rfl⟩
